import Mathlib

/-!
Verification of the SiriusXM proxy client (sxm.py).

The development shallowly embeds the client code. Network calls are
parameterised by oracles (functions from a call index to the response the
remote service gives on that call), Python exceptions are modelled with
Except values, the Python cookie jar is modelled by Option-valued cookie
contents, and the unbounded self-recursion of get_playlist is modelled with
an explicit fuel argument (fuel exhaustion is reported by a dedicated
constructor, so every theorem below is about runs the source itself
performs). The Python string primitives the client uses (split, rsplit,
rstrip, lower, slicing, replace) are implemented structurally on character
lists so that every definition evaluates inside the kernel.
-/

/-- Python truthiness of an optional string: None and the empty string are
falsy, every other string is truthy. -/
def pyTruthy : Option String → Bool
  | none => false
  | some s => !(s == "")

/-- Python s.split(c) on a character list: split at every occurrence of c;
the empty list yields one empty group, like the Python call on the empty
string. -/
def splitOnChar (c : Char) : List Char → List (List Char)
  | [] => [[]]
  | x :: xs =>
    if x == c then [] :: splitOnChar c xs
    else
      match splitOnChar c xs with
      | [] => [[x]]
      | g :: gs => (x :: g) :: gs

/-- Rejoin groups with the separator character between them, the inverse
of splitOnChar. -/
def joinChar (c : Char) : List (List Char) → List Char
  | [] => []
  | [l] => l
  | l :: ls => l ++ c :: joinChar c ls

/-- Python s.split(c, 1): the part before the first occurrence of c, and,
when c occurs, the remainder after it (none models the IndexError a [1]
subscript raises when c does not occur). -/
def pySplit1 (s : String) (c : Char) : String × Option String :=
  match splitOnChar c s.data with
  | [] => (s, none)
  | [x] => (String.mk x, none)
  | x :: rest => (String.mk x, some (String.mk (joinChar c rest)))

/-- Python url.rsplit(sep, 1)[0] for sep = the slash character: everything
before the last slash, or the whole string when it has no slash. -/
def pyRsplitDir (s : String) : String :=
  match splitOnChar '/' s.data with
  | [] => s
  | [_] => s
  | parts => String.mk (joinChar '/' parts.dropLast)

/-- The whitespace characters stripped by Python str.rstrip(). -/
def pyIsSpace (c : Char) : Bool :=
  c == ' ' || c == '\t' || c == '\n' || c == '\r' || c == '\x0b' || c == '\x0c'

/-- Python s.rstrip(): drop trailing whitespace. -/
def pyRstrip (s : String) : String :=
  String.mk ((s.data.reverse.dropWhile pyIsSpace).reverse)

/-- Python s.lower(), on the ASCII letters the client compares. -/
def pyLower (s : String) : String := String.mk (s.data.map Char.toLower)

/-- Python s.endswith(suffix). -/
def pyEndsWith (s suffix : String) : Bool := suffix.data.isSuffixOf s.data

/-- Python s[n:]. -/
def pyDrop (s : String) (n : Nat) : String := String.mk (s.data.drop n)

/-- Python s.split with the newline separator, as get_playlist and
get_playlist_variant_url use it on response bodies. -/
def splitLines (s : String) : List String := (splitOnChar '\n' s.data).map String.mk

/-- The newline join applied by get_playlist to the rewritten lines. -/
def joinLines (l : List String) : String := String.mk (joinChar '\n' (l.map String.data))

/-- One pass of Python s.replace(pat, repl) with a fuel argument bounding
the scan (the fuel is instantiated with the length of the scanned list, so
it never runs out): at each position a nonempty pattern match is replaced
and the scan continues after it, left to right, without overlap. -/
def pyReplaceAux (pat repl : List Char) : Nat → List Char → List Char
  | _, [] => []
  | 0, l => l
  | fuel + 1, x :: xs =>
    if pat.isPrefixOf (x :: xs) && !pat.isEmpty then
      repl ++ pyReplaceAux pat repl fuel ((x :: xs).drop pat.length)
    else x :: pyReplaceAux pat repl fuel xs

/-- Python s.replace(pat, repl). -/
def pyReplace (s pat repl : String) : String :=
  String.mk (pyReplaceAux pat.data repl.data s.data.length s.data)

/-- An HTTP response as the client observes it: a status code and a body.
Bodies of binary segment responses are modelled as strings as well. -/
structure Resp where
  status : Nat
  text : String
deriving DecidableEq

/-- JSON values, for the profile-data cookie contents. -/
inductive JValue where
  | null : JValue
  | bool : Bool → JValue
  | num : Int → JValue
  | str : String → JValue
  | arr : List JValue → JValue
  | obj : List (String × JValue) → JValue

/-- Whether an Except computation finished without an uncaught exception. -/
def okB {α : Type} : Except String α → Bool
  | .ok _ => true
  | .error _ => false

/-- The body of the try block of get_sxmak_token, sxm.py lines 223-227:
cookies of the jar indexed by SXMAKTOKEN (raising KeyError when absent),
split on the first equals sign (indexing [1] raises IndexError when there
is none), then the part before the first comma. -/
def sxmakTokenInner (cookie : Option String) : Except String String :=
  match cookie with
  | none => .error "KeyError"
  | some v =>
    match (pySplit1 v '=').2 with
    | none => .error "IndexError"
    | some rest => .ok (pySplit1 rest ',').1

/-- get_sxmak_token, sxm.py lines 223-227: the try block with KeyError and
IndexError caught and turned into None. -/
def get_sxmak_token (cookie : Option String) : Except String (Option String) :=
  match sxmakTokenInner cookie with
  | .ok t => .ok (some t)
  | .error e => if e == "KeyError" || e == "IndexError" then .ok none else .error e

/-- The body of the try block of get_gup_id, sxm.py lines 229-233. The
argument abstracts the cookie jar state: none = the SXMDATA cookie is
absent (indexing the jar raises KeyError); some none = the cookie is
present but its URL-decoded text is not valid JSON (json.loads raises
ValueError); some (some v) = the text decodes to the JSON value v.
Subscripting a non-object value with a string key raises TypeError in
Python; an object without the gupId key raises KeyError. -/
def gupIdInner (data : Option (Option JValue)) : Except String JValue :=
  match data with
  | none => .error "KeyError"
  | some none => .error "ValueError"
  | some (some v) =>
    match v with
    | .obj fields =>
      match fields.lookup "gupId" with
      | some g => .ok g
      | none => .error "KeyError"
    | _ => .error "TypeError"

/-- get_gup_id, sxm.py lines 229-233: the try block with KeyError and
ValueError caught and turned into None; any other exception escapes. -/
def get_gup_id (data : Option (Option JValue)) : Except String (Option JValue) :=
  match gupIdInner data with
  | .ok g => .ok (some g)
  | .error e => if e == "KeyError" || e == "ValueError" then .ok none else .error e

/-- The states of the profile-data cookie in which get_gup_id reaches the
uncaught TypeError: the cookie holds valid JSON that is not an object. -/
def gupRaises : Option (Option JValue) → Bool
  | some (some (JValue.obj _)) => false
  | some (some _) => true
  | _ => false

/-- The token-cookie states the claim calls absent or malformed: the
cookie is missing from the jar, or its value holds no equals-sign
delimiter. -/
def sxmakUnavailable : Option String → Bool
  | none => true
  | some v => ((pySplit1 v '=').2).isNone

/-- The profile-data cookie states in which get_gup_id returns the
not-available value: the cookie is absent, its decoded text is not valid
JSON, or it decodes to a JSON object without the gupId key. -/
def gupUnavailable : Option (Option JValue) → Bool
  | none => true
  | some none => true
  | some (some (JValue.obj fields)) => (fields.lookup "gupId").isNone
  | _ => false

/-- The line scan of get_playlist_variant_url, sxm.py lines 307-311: the
first line whose right-stripped content ends in .m3u8, right-stripped. -/
def findVariantLine : List String → Option String
  | [] => none
  | x :: xs => if pyEndsWith (pyRstrip x) ".m3u8" then some (pyRstrip x) else findVariantLine xs

/-- get_playlist_variant_url, sxm.py lines 295-312, given the response of
the master-playlist fetch: on a non-200 status the call fails; otherwise
the result joins the directory of the master URL with the first line of
the body whose stripped content ends in .m3u8. -/
def get_playlist_variant_url (url : String) (res : Resp) : Option String :=
  if res.status != 200 then none
  else
    match findVariantLine (splitLines res.text) with
    | none => none
    | some x => some (pyRsplitDir url ++ "/" ++ x)

/-- base_path of get_playlist, sxm.py lines 339-340: the directory of the
variant URL, with its first 8 characters dropped, split at the first
slash, keeping the part after it; indexing [1] raises IndexError when no
slash remains (returned here as none). -/
def basePathOf (url : String) : Option String :=
  (pySplit1 (pyDrop (pyRsplitDir url) 8) '/').2

/-- The rewrite loop of get_playlist, sxm.py lines 341-344: every line
whose stripped content ends in .aac is prefixed with the base path and a
slash; all other lines are kept unchanged. -/
def rewriteLoop (basePath : String) : List String → List String
  | [] => []
  | x :: xs =>
    (if pyEndsWith (pyRstrip x) ".aac" then basePath ++ "/" ++ x else x) :: rewriteLoop basePath xs

/-- The playlist rewrite of get_playlist, sxm.py lines 338-345: compute the
base path from the variant URL (IndexError escapes when the URL has no
path component behind the scheme and host), rewrite the lines of the body,
and rejoin them with newlines. -/
def aacRewrite (url text : String) : Except String String :=
  match basePathOf url with
  | none => .error "IndexError"
  | some bp => .ok (joinLines (rewriteLoop bp (splitLines text)))

/-- A channel record of the catalog, with the four fields the client reads.
Each field is optional because the Python code reads them from a JSON
dictionary with .get (matching fields) or subscripting (result fields).
The station number is a string in the listing JSON (the listing CLI
applies int and str conversions to it). -/
structure Channel where
  name : Option String
  channelId : Option String
  siriusChannelNumber : Option String
  channelGuid : Option String
deriving DecidableEq

/-- The match test of get_channel, sxm.py line 405, against an already
lowercased lookup string n: lowercased name equals n, or lowercased
channelId equals n, or the station number field equals n (this last
comparison is on the raw field; an absent field compares unequal, as
None == n does in Python). -/
def channelMatches (n : String) (x : Channel) : Bool :=
  pyLower (x.name.getD "") == n || pyLower (x.channelId.getD "") == n ||
    x.siriusChannelNumber == some n

/-- The loop of get_channel, sxm.py lines 404-407: the first matching
channel yields the pair of its channelGuid and channelId, read by
subscripting (KeyError escapes when a field is absent); no match yields
the pair (None, None). -/
def lookupChannel : List Channel → String → Except String (Option String × Option String)
  | [], _ => .ok (none, none)
  | x :: xs, n =>
    if channelMatches n x then
      match x.channelGuid, x.channelId with
      | some g, some c => .ok (some g, some c)
      | _, _ => .error "KeyError"
    else lookupChannel xs n

/-- Channel resolution over a given catalog list: get_channel, sxm.py
lines 402-407, lowercases the lookup string once and runs the loop. -/
def resolveChannel (cs : List Channel) (name : String) :
    Except String (Option String × Option String) :=
  lookupChannel cs (pyLower name)

/-- Modelled from the words of the specification section 4.2, for
comparison with the loop of the source: resolution is the first catalog
entry matching the lowercased query, yielding its identifier pair, and a
well-defined not-found value otherwise. -/
def channelResolutionSpec (cs : List Channel) (n : String) :
    Except String (Option String × Option String) :=
  match cs.find? (channelMatches n) with
  | none => .ok (none, none)
  | some x =>
    match x.channelGuid, x.channelId with
    | some g, some c => .ok (some g, some c)
    | _, _ => .error "KeyError"

/-- The outcome of the channel-listing POST of get_channels: the post
helper returned a falsy value (non-200 status or JSON decode failure);
or the envelope was missing the expected nesting (KeyError or IndexError
while extracting the channel array); or the channel array itself. -/
inductive ChFetch where
  | httpFail : ChFetch
  | parseFail : ChFetch
  | ok : List Channel → ChFetch
deriving DecidableEq

/-- The Python value returned by get_channels: either a list of channel
records, or the literal tuple (None, None) that line 393 of sxm.py
returns when the POST fails. -/
inductive ChannelsValue where
  | list : List Channel → ChannelsValue
  | nonePair : ChannelsValue
deriving DecidableEq

/-- get_channels, sxm.py lines 373-400: when the cached catalog is falsy
(still None, or the empty list), perform the listing POST; on POST
failure return the tuple (None, None) leaving the cache unchanged, on
parse failure return the empty list leaving the cache unchanged, on
success store and return the list. Result: the returned value and the
new cache. -/
def get_channels (cache : Option (List Channel)) (fetch : ChFetch) :
    ChannelsValue × Option (List Channel) :=
  match cache with
  | some (c :: cs) => (.list (c :: cs), cache)
  | _ =>
    match fetch with
    | .httpFail => (.nonePair, cache)
    | .parseFail => (.list [], cache)
    | .ok cs => (.list cs, some cs)

/-- get_channel, sxm.py lines 402-407, through get_channels: iterating the
tuple (None, None) binds the loop variable to None, and None.get raises
AttributeError on the first iteration; a list value runs the match
loop. -/
def get_channel (cache : Option (List Channel)) (fetch : ChFetch) (name : String) :
    Except String (Option String × Option String) :=
  match (get_channels cache fetch).1 with
  | .nonePair => .error "AttributeError"
  | .list cs => lookupChannel cs (pyLower name)

/-- The authentication-refresh timeout of the client, sxm.py line 16,
in minutes. -/
def AUTH_TIMEOUT_MINUTES : ℚ := 10

/-- is_session_authenticated, sxm.py lines 109-110: both continuity
cookies are present in the jar (modelled by the list of cookie names). -/
def is_session_authenticated (cookies : List String) : Bool :=
  cookies.contains "AWSALB" && cookies.contains "JSESSIONID"

/-- should_refresh_authentication, sxm.py lines 88-104: refresh when no
previous authentication time is recorded, or when the elapsed minutes
since it reach the timeout. Time is modelled by rational seconds. -/
def should_refresh_authentication (last_auth_time : Option ℚ) (now : ℚ) : Bool :=
  match last_auth_time with
  | none => true
  | some t => decide ((now - t) / 60 ≥ AUTH_TIMEOUT_MINUTES)

/-- The pre-call check of get and post, sxm.py lines 112-113 and 129-130:
authenticate is requested and the session is either not fully
authenticated or due for a refresh. -/
def get_auth_check (cookies : List String) (last_auth_time : Option ℚ)
    (now : ℚ) (authenticate : Bool) : Bool :=
  authenticate && (!is_session_authenticated cookies || should_refresh_authentication last_auth_time now)

/-- The session state the pre-call check reads: the cookie jar and the
recorded last authentication time. -/
structure SessState where
  cookies : List String
  last_auth_time : Option ℚ
deriving DecidableEq

/-- One authenticated request through get, sxm.py lines 112-116, restricted
to its authentication effect: when the pre-call check fires, one network
authentication round trip happens (counted), and on success authenticate
records the current time (sxm.py line 215); otherwise no round trip and
no state change. -/
def do_get (st : SessState) (now : ℚ) (authOk : Bool) : Nat × SessState :=
  if get_auth_check st.cookies st.last_auth_time now true then
    (1, if authOk then ⟨st.cookies, some now⟩ else st)
  else (0, st)

/-- The live-playlist base URL constant, sxm.py line 14. -/
def LIVE_PRIMARY_HLS : String := "https://siriusxm-priprodlive.akamaized.net"

/-- An HLS audio variant descriptor from the live-playlist response:
its size tag and its URL. -/
structure HlsInfo where
  size : String
  url : String
deriving DecidableEq

/-- The outcome of one now-playing-live request as get_playlist_url
observes it, sxm.py lines 249-260: the get helper returned a falsy value;
or the status and message extraction raised (KeyError or IndexError); or
a message code was extracted, together with the later extraction of the
hlsAudioInfos array (which may itself raise, consulted only on code
100). -/
inductive NPOut where
  | noData : NPOut
  | parseErr : NPOut
  | coded : Int → Except Unit (List HlsInfo) → NPOut

/-- The message code of a now-playing-live outcome, when one was
extracted. -/
def npCode : NPOut → Option Int
  | .coded c _ => some c
  | _ => none

/-- get_playlist_url, sxm.py lines 235-293. Oracles: np gives the
now-playing-live outcome of the j-th request of the run, auth the result
of the j-th re-authentication, variant the result of
get_playlist_variant_url on a given master URL. cache is the existing
playlists entry for this channel id. k is the index of the next request.
Result: the returned URL (None on every failure path) and the number of
re-authentication attempts performed. The 201/208 branch clears
last_auth_time, re-authenticates, and recurses with max_attempts - 1
while max_attempts > 0, sxm.py lines 263-276. -/
def get_playlist_url (np : Nat → NPOut) (auth : Nat → Bool)
    (variant : String → Option String) (cache : Option String)
    (use_cache : Bool) (k : Nat) (max_attempts : Nat) : Option String × Nat :=
  if use_cache && cache.isSome then (cache, 0)
  else
    match np k with
    | .noData => (none, 0)
    | .parseErr => (none, 0)
    | .coded code infos =>
      if code == 201 || code == 208 then
        match max_attempts with
        | m + 1 =>
          if auth k then
            let r := get_playlist_url np auth variant cache use_cache (k + 1) m
            (r.1, r.2 + 1)
          else (none, 1)
        | 0 => (none, 0)
      else if code != 100 then (none, 0)
      else
        match infos with
        | .error _ => (none, 0)
        | .ok l =>
          match l.find? (fun i => i.size == "LARGE") with
          | none => (none, 0)
          | some i => (variant (pyReplace i.url "%Live_Primary_HLS%" LIVE_PRIMARY_HLS), 0)

/-- The environment of one get_playlist run: the channel pair returned by
get_channel, the result of get_playlist_url on the k-th resolution (given
the use_cache flag it was passed), and the response of the k-th
variant-playlist fetch. -/
structure PlEnv where
  channel : Option String × Option String
  resolve : Nat → Bool → Option String
  fetch : Nat → Resp

/-- The outcome of a get_playlist run: a normal return (None or the
rewritten playlist text), an uncaught exception, or fuel exhaustion of
the model (the source recursion itself is unbounded). -/
inductive POut where
  | ok : Option String → POut
  | exn : String → POut
  | fuelOut : POut
deriving DecidableEq

/-- A get_playlist run result: its outcome, the URLs passed to the
variant-playlist fetch in order (None models passing the absent URL to
session.get, which raises MissingSchema), and how many times the 403
branch cleared last_auth_time. -/
structure PlResult where
  out : POut
  urls : List (Option String)
  authClears : Nat
deriving DecidableEq

/-- get_playlist, sxm.py lines 314-345, with fuel bounding the unbounded
403 recursion of line 332. A falsy guid or channel id returns None
without fetching; then the resolved URL (checked by no guard) is passed
to session.get: the absent URL raises MissingSchema inside the fetch.
A 403 response clears last_auth_time and recurses on the whole operation
with use_cache false; any other non-200 returns None; a 200 response is
rewritten by aacRewrite. -/
def get_playlist (env : PlEnv) : Nat → Nat → Bool → PlResult
  | 0, _, _ => ⟨.fuelOut, [], 0⟩
  | fuel + 1, k, use_cache =>
    if !(pyTruthy env.channel.1 && pyTruthy env.channel.2) then ⟨.ok none, [], 0⟩
    else
      match env.resolve k use_cache with
      | none => ⟨.exn "MissingSchema", [none], 0⟩
      | some u =>
        let r := env.fetch k
        if r.status == 403 then
          let rest := get_playlist env fuel (k + 1) false
          ⟨rest.out, some u :: rest.urls, rest.authClears + 1⟩
        else if r.status != 200 then ⟨.ok none, [some u], 0⟩
        else
          match aacRewrite u r.text with
          | .ok t => ⟨.ok (some t), [some u], 0⟩
          | .error e => ⟨.exn e, [some u], 0⟩

/-- The channel name embedded in a segment path: path.split with the slash
separator and maxsplit 2, indexed at 1, sxm.py line 361; None models the
IndexError raised when the path contains no slash. -/
def channelOf (path : String) : Option String :=
  match (pySplit1 path '/').2 with
  | none => none
  | some rest => some (pySplit1 rest '/').1

/-- A get_segment run result: its outcome (ok none is the normal failure
return, ok some the segment content), the number of segment fetches
performed, the number of times the 403 branch cleared last_auth_time, and
the channels for which the 403 branch re-resolved the playlist. -/
structure SegResult where
  out : Except String (Option String)
  fetches : Nat
  authClears : Nat
  resolves : List String

/-- get_segment, sxm.py lines 347-371. fetch gives the response of the
k-th segment fetch of the run. On 403 with max_attempts > 0 the code
clears last_auth_time, re-resolves the playlist for the channel embedded
in the path ignoring its result (recorded in resolves; extracting the
channel raises IndexError when the path has no slash), and recurses with
max_attempts - 1; on 403 with max_attempts == 0 it fails at once; any
other non-200 fails; a 200 returns the content. -/
def get_segment (fetch : Nat → Resp) (path : String) (k : Nat) (max_attempts : Nat) : SegResult :=
  let r := fetch k
  if r.status == 403 then
    match max_attempts with
    | m + 1 =>
      match channelOf path with
      | none => ⟨.error "IndexError", 1, 1, []⟩
      | some ch =>
        let rest := get_segment fetch path (k + 1) m
        ⟨rest.out, rest.fetches + 1, rest.authClears + 1, ch :: rest.resolves⟩
    | 0 => ⟨.ok none, 1, 0, []⟩
  else if r.status != 200 then ⟨.ok none, 1, 0, []⟩
  else ⟨.ok (some r.text), 1, 0, []⟩

/-- An environment for get_playlist in which resolution always succeeds
and the first two variant-playlist fetches return 403, the third a 200
with a one-segment body. -/
def c1Env : PlEnv :=
  ⟨(some "g", some "c"), fun _ _ => some "https://h/d/v.m3u8",
   fun k => if k < 2 then ⟨403, ""⟩ else ⟨200, "a.aac"⟩⟩

/-- An environment for get_playlist in which the channel resolves but
get_playlist_url always yields the absent URL. -/
def c10Env : PlEnv := ⟨(some "g", some "c"), fun _ _ => none, fun _ => ⟨200, ""⟩⟩

/-- A now-playing-live responder that always answers with message code
201 (session expired). -/
def c2Np : Nat → NPOut := fun _ => NPOut.coded 201 (Except.error ())

/-- A one-channel catalog for the channel-resolution witness. -/
def c3Cat : List Channel := [⟨some "Test FM", some "testfm", some "8", some "g8"⟩]

/-- A segment-fetch responder that always answers 403. -/
def segFetch403 : Nat → Resp := fun _ => ⟨403, ""⟩

theorem findVariantLine_eq_find (l : List String) :
    findVariantLine l = (l.find? (fun x => pyEndsWith (pyRstrip x) ".m3u8")).map pyRstrip := by
  induction l with
  | nil => rfl
  | cons x xs ih =>
    rw [findVariantLine, List.find?]
    cases h : pyEndsWith (pyRstrip x) ".m3u8" with
    | true => simp [h]
    | false => simp [h, ih]

theorem rewriteLoop_eq_map (bp : String) (l : List String) :
    rewriteLoop bp l =
      l.map (fun x => if pyEndsWith (pyRstrip x) ".aac" then bp ++ "/" ++ x else x) := by
  induction l with
  | nil => rfl
  | cons x xs ih => simp [rewriteLoop, ih]

theorem lookupChannel_eq_spec (cs : List Channel) (n : String) :
    lookupChannel cs n = channelResolutionSpec cs n := by
  induction cs with
  | nil => rfl
  | cons x xs ih =>
    rw [lookupChannel, channelResolutionSpec, List.find?]
    cases h : channelMatches n x with
    | true => simp [h]
    | false =>
      rw [if_neg (by simp), ih, channelResolutionSpec]

/-- Claim C5, counterexample: a cookie jar whose profile-data cookie
decodes to the valid JSON array [] makes get_gup_id raise TypeError
instead of returning the not-available value, so the helpers do not
return without raising on every malformed cookie state. -/
theorem c5_counterexample :
    get_gup_id (some (some (JValue.arr []))) = .error "TypeError" := rfl

/-- Claim C5, amended: get_sxmak_token never raises, and in every absent
or delimiter-free cookie state it returns the not-available value (None);
get_gup_id returns the not-available value (None) whenever the
profile-data cookie is absent, fails to decode as JSON, or decodes to an
object without the gupId key, and raises the uncaught TypeError in every
state where the cookie decodes to valid non-object JSON (array, string,
number, boolean or null). -/
theorem c5_extraction_no_raise :
    ∀ (tok : Option String) (gup : Option (Option JValue)),
      okB (get_sxmak_token tok) = true ∧
      (sxmakUnavailable tok = true → get_sxmak_token tok = .ok none) ∧
      (gupUnavailable gup = true → get_gup_id gup = .ok none) ∧
      (gupRaises gup = true → get_gup_id gup = .error "TypeError") := by
  intro tok gup
  refine ⟨?_, ?_, ?_, ?_⟩
  · cases tok with
    | none => rfl
    | some v =>
      cases h : (pySplit1 v '=').2 with
      | none => simp [get_sxmak_token, sxmakTokenInner, h, okB]
      | some rest => simp [get_sxmak_token, sxmakTokenInner, h, okB]
  · intro hu
    cases tok with
    | none => rfl
    | some v =>
      cases h : (pySplit1 v '=').2 with
      | none => simp [get_sxmak_token, sxmakTokenInner, h]
      | some rest =>
        rw [sxmakUnavailable, h] at hu
        simp at hu
  · intro hu
    cases gup with
    | none => rfl
    | some o =>
      cases o with
      | none => rfl
      | some v =>
        cases v with
        | obj fields =>
          cases h : fields.lookup "gupId" with
          | none => simp [get_gup_id, gupIdInner, h]
          | some g =>
            rw [gupUnavailable, h] at hu
            simp at hu
        | null => simp [gupUnavailable] at hu
        | bool b => simp [gupUnavailable] at hu
        | num n => simp [gupUnavailable] at hu
        | str s => simp [gupUnavailable] at hu
        | arr l => simp [gupUnavailable] at hu
  · intro hr
    cases gup with
    | none => simp [gupRaises] at hr
    | some o =>
      cases o with
      | none => simp [gupRaises] at hr
      | some v =>
        cases v with
        | obj fields => simp [gupRaises] at hr
        | null => rfl
        | bool b => rfl
        | num n => rfl
        | str s => rfl
        | arr l => rfl

/-- Claim C5, witness: the amended theorem applied at concrete states — a
delimiter-free token cookie yields the not-available token, an
invalid-JSON profile cookie yields the not-available profile id, and a
cookie decoding to a JSON string raises TypeError. -/
theorem c5_extraction_no_raise_witness :
    get_sxmak_token (some "garbage") = .ok none ∧
    get_gup_id (some none) = .ok none ∧
    get_gup_id (some (some (JValue.str "x"))) = .error "TypeError" :=
  ⟨(c5_extraction_no_raise (some "garbage") (some none)).2.1 rfl,
   (c5_extraction_no_raise (some "garbage") (some none)).2.2.1 rfl,
   (c5_extraction_no_raise (some "garbage") (some (some (JValue.str "x")))).2.2.2 rfl⟩

/-- Claim C7: on a 200 response, variant selection returns the directory
of the master URL joined with the first line whose stripped content ends
in .m3u8 (an Option.map over List.find? on the body lines), and in
particular the three-line master playlist of the claim resolves to the
256k variant, the first .m3u8 line in order, regardless of bitrate
values. -/
theorem c7_variant_selection :
    ∀ (url : String) (r : Resp), r.status = 200 →
      get_playlist_variant_url url r =
        ((splitLines r.text).find? (fun x => pyEndsWith (pyRstrip x) ".m3u8")).map
          (fun x => pyRsplitDir url ++ "/" ++ pyRstrip x) ∧
      get_playlist_variant_url "https://h/p/master.m3u8"
          ⟨200, "#EXT-X-STREAM-INF:BANDWIDTH=262000\n256k/variant.m3u8\n64k/variant.m3u8"⟩ =
        some "https://h/p/256k/variant.m3u8" := by
  intro url r h
  refine ⟨?_, rfl⟩
  rw [get_playlist_variant_url, h]
  rw [findVariantLine_eq_find]
  cases (splitLines r.text).find? (fun x => pyEndsWith (pyRstrip x) ".m3u8") with
  | none => rfl
  | some x => rfl

/-- Claim C7, witness: the theorem applied to the master URL and response
of the claim. -/
theorem c7_variant_selection_witness :
    get_playlist_variant_url "https://h/p/master.m3u8"
        ⟨200, "#EXT-X-STREAM-INF:BANDWIDTH=262000\n256k/variant.m3u8\n64k/variant.m3u8"⟩ =
      some "https://h/p/256k/variant.m3u8" :=
  (c7_variant_selection "https://h/p/master.m3u8"
    ⟨200, "#EXT-X-STREAM-INF:BANDWIDTH=262000\n256k/variant.m3u8\n64k/variant.m3u8"⟩ rfl).2

/-- Claim C8: whenever the base path of the variant URL is defined (the
URL has a path component behind its scheme and host), the playlist
rewrite of get_playlist prefixes exactly the lines whose stripped content
ends in .aac with that base path and a slash, leaves every other line
unchanged, and rejoins the lines with newlines. -/
theorem c8_aac_rewrite :
    ∀ (url text bp : String), basePathOf url = some bp →
      aacRewrite url text =
        .ok (joinLines
          ((splitLines text).map
            (fun l => if pyEndsWith (pyRstrip l) ".aac" then bp ++ "/" ++ l else l))) := by
  intro url text bp h
  simp [aacRewrite, h, rewriteLoop_eq_map]

/-- Claim C8, witness: the rewrite of a two-line playlist under a concrete
variant URL, one line ending in .aac and one not. -/
theorem c8_aac_rewrite_witness :
    aacRewrite "https://host/seg/chan/v.m3u8" "#EXTINF:10,\ns1.aac" =
      .ok "#EXTINF:10,\nseg/chan/s1.aac" := by
  rw [c8_aac_rewrite "https://host/seg/chan/v.m3u8" "#EXTINF:10,\ns1.aac" "seg/chan" rfl]
  rfl

/-- Claim C3: channel resolution is case-insensitive in the query (two
queries with the same lowercasing resolve identically), returns the
identifier pair of the first catalog entry matching the lowercased query
against name, channelId or station number (List.find? order), and when it
returns normally the pair is either fully absent (the not-found value) or
fully present — never partial. -/
theorem c3_channel_resolution :
    ∀ (cs : List Channel) (s₁ s₂ : String), pyLower s₁ = pyLower s₂ →
      resolveChannel cs s₁ = resolveChannel cs s₂ ∧
      resolveChannel cs s₁ = channelResolutionSpec cs (pyLower s₁) ∧
      ∀ g c, resolveChannel cs s₁ = .ok (g, c) →
        (g = none ∧ c = none) ∨ (g.isSome = true ∧ c.isSome = true) := by
  intro cs s₁ s₂ hcase
  refine ⟨?_, ?_, ?_⟩
  · rw [resolveChannel, resolveChannel, hcase]
  · rw [resolveChannel, lookupChannel_eq_spec]
  · intro g c h
    rw [resolveChannel, lookupChannel_eq_spec, channelResolutionSpec] at h
    revert h
    cases hf : cs.find? (channelMatches (pyLower s₁)) with
    | none =>
      intro h
      injection h with h'
      injection h' with h1 h2
      exact Or.inl ⟨h1.symm, h2.symm⟩
    | some x =>
      cases hg : x.channelGuid with
      | none =>
        intro h
        simp [hg] at h
      | some g' =>
        cases hc : x.channelId with
        | none =>
          intro h
          simp [hg, hc] at h
        | some c' =>
          intro h
          simp only [hg, hc] at h
          injection h with h'
          injection h' with h1 h2
          subst h1
          subst h2
          exact Or.inr ⟨rfl, rfl⟩

/-- Claim C3, witness: on a one-channel catalog, the queries TESTFM and
TestFM resolve identically by channelId match, and the returned pair is
fully present. -/
theorem c3_channel_resolution_witness :
    resolveChannel c3Cat "TESTFM" = resolveChannel c3Cat "TestFM" ∧
    (((some "g8" : Option String) = none ∧ (some "testfm" : Option String) = none) ∨
      ((some "g8" : Option String).isSome = true ∧
        (some "testfm" : Option String).isSome = true)) := by
  have h := c3_channel_resolution c3Cat "TESTFM" "TestFM" (by decide)
  exact ⟨h.1, h.2.2 (some "g8") (some "testfm") rfl⟩

/-- Claim C4: with an empty catalog cache and a failing channel-listing
POST, get_channels returns the tuple (None, None) and leaves the cache
empty, and the lookup raises AttributeError when it iterates that tuple,
instead of returning the not-found value. The parse-failure branch, by
contrast, returns the clean not-found value. Evaluates the code at the
failing input of the code_bug verdict. -/
theorem c4_directory_failure_bug :
    get_channel none ChFetch.httpFail "octane" = .error "AttributeError" ∧
    (get_channels none ChFetch.httpFail).1 = ChannelsValue.nonePair ∧
    (get_channels none ChFetch.httpFail).2 = none ∧
    get_channel none ChFetch.parseFail "octane" = .ok (none, none) :=
  ⟨rfl, rfl, rfl, rfl⟩

/-- Claim C6: with both continuity cookies present and a recorded last
authentication time less than 10 minutes old, the pre-call check of get
is a no-op: each of two requests inside the window performs zero
authentication round trips and leaves the state unchanged (the second
observes the same authenticated state), so the two requests together
trigger at most one round trip. -/
theorem c6_auth_noop :
    ∀ (st : SessState) (t now₁ now₂ : ℚ) (b₁ b₂ : Bool),
      is_session_authenticated st.cookies = true →
      st.last_auth_time = some t →
      (now₁ - t) / 60 < 10 →
      (now₂ - t) / 60 < 10 →
      do_get st now₁ b₁ = (0, st) ∧
      do_get (do_get st now₁ b₁).2 now₂ b₂ = (0, st) ∧
      (do_get st now₁ b₁).1 + (do_get (do_get st now₁ b₁).2 now₂ b₂).1 ≤ 1 := by
  intro st t now₁ now₂ b₁ b₂ hauth hlat h₁ h₂
  have hr₁ : should_refresh_authentication st.last_auth_time now₁ = false := by
    rw [hlat]
    simp only [should_refresh_authentication, AUTH_TIMEOUT_MINUTES, decide_eq_false_iff_not, not_le]
    exact h₁
  have hr₂ : should_refresh_authentication st.last_auth_time now₂ = false := by
    rw [hlat]
    simp only [should_refresh_authentication, AUTH_TIMEOUT_MINUTES, decide_eq_false_iff_not, not_le]
    exact h₂
  have g₁ : do_get st now₁ b₁ = (0, st) := by
    simp [do_get, get_auth_check, hauth, hr₁]
  have g₂ : do_get st now₂ b₂ = (0, st) := by
    simp [do_get, get_auth_check, hauth, hr₂]
  refine ⟨g₁, ?_, ?_⟩
  · rw [g₁]
    exact g₂
  · rw [g₁]
    simp [g₂]

/-- Claim C6, witness: a state holding both continuity cookies
authenticated at time 0, queried at 60 and 120 seconds. -/
theorem c6_auth_noop_witness :
    do_get ⟨["AWSALB", "JSESSIONID"], some 0⟩ 60 true = (0, ⟨["AWSALB", "JSESSIONID"], some 0⟩) ∧
    do_get (do_get ⟨["AWSALB", "JSESSIONID"], some 0⟩ 60 true).2 120 true =
      (0, ⟨["AWSALB", "JSESSIONID"], some 0⟩) ∧
    (do_get ⟨["AWSALB", "JSESSIONID"], some 0⟩ 60 true).1 +
      (do_get (do_get ⟨["AWSALB", "JSESSIONID"], some 0⟩ 60 true).2 120 true).1 ≤ 1 :=
  c6_auth_noop ⟨["AWSALB", "JSESSIONID"], some 0⟩ 0 60 120 true true (by decide) rfl
    (by norm_num) (by norm_num)

/-- Claim C2: against a now-playing-live responder that always answers
with session-expired codes (201 or 208) and re-authentication that always
succeeds, playlist resolution with a cache miss performs exactly
max_attempts re-authentication attempts and then fails: for every
max_attempts value m the call returns the failure value with m
re-authentications — in particular 5 attempts for the default m = 5, and
an immediate terminal failure with 0 attempts when m = 0. -/
theorem c2_bounded_reauth :
    ∀ (np : Nat → NPOut) (auth : Nat → Bool) (variant : String → Option String)
      (cache : Option String) (u : Bool) (k : Nat),
      (u && cache.isSome) = false →
      (∀ j, npCode (np j) = some 201 ∨ npCode (np j) = some 208) →
      (∀ j, auth j = true) →
      ∀ m, get_playlist_url np auth variant cache u k m = (none, m) := by
  intro np auth variant cache u k hcache hnp hauth m
  induction m generalizing k with
  | zero =>
    cases h : np k with
    | noData =>
      rcases hnp k with h' | h' <;> (rw [h] at h'; simp [npCode] at h')
    | parseErr =>
      rcases hnp k with h' | h' <;> (rw [h] at h'; simp [npCode] at h')
    | coded c infos =>
      have hc : c = 201 ∨ c = 208 := by
        rcases hnp k with h' | h'
        · rw [h] at h'
          simp [npCode] at h'
          exact Or.inl h'
        · rw [h] at h'
          simp [npCode] at h'
          exact Or.inr h'
      rcases hc with rfl | rfl
      · rw [get_playlist_url]
        simp [hcache, h]
      · rw [get_playlist_url]
        simp [hcache, h]
  | succ m ih =>
    cases h : np k with
    | noData =>
      rcases hnp k with h' | h' <;> (rw [h] at h'; simp [npCode] at h')
    | parseErr =>
      rcases hnp k with h' | h' <;> (rw [h] at h'; simp [npCode] at h')
    | coded c infos =>
      have hc : c = 201 ∨ c = 208 := by
        rcases hnp k with h' | h'
        · rw [h] at h'
          simp [npCode] at h'
          exact Or.inl h'
        · rw [h] at h'
          simp [npCode] at h'
          exact Or.inr h'
      rcases hc with rfl | rfl
      · rw [get_playlist_url]
        simp [hcache, h, hauth k, ih (k + 1)]
      · rw [get_playlist_url]
        simp [hcache, h, hauth k, ih (k + 1)]

/-- Claim C2, witness: the always-201 responder with always-succeeding
re-authentication, empty cache and max_attempts 5 yields failure after
exactly 5 re-authentication attempts. -/
theorem c2_bounded_reauth_witness :
    get_playlist_url c2Np (fun _ => true) (fun _ => none) none true 0 5 = (none, 5) :=
  c2_bounded_reauth c2Np (fun _ => true) (fun _ => none) none true 0 rfl
    (fun _ => Or.inl rfl) (fun _ => rfl) 5

/-- Claim C9: when the segment fetch returns 403 with max_attempts 0, no
retry occurs — the call fails at once after a single fetch, with no
authentication clear and no playlist re-resolution; when it returns 403
with max_attempts positive, the code clears last_auth_time, re-resolves
the playlist for the channel embedded in the path (result ignored) and
recurses with max_attempts - 1. -/
theorem c9_segment_retry :
    ∀ (fetch : Nat → Resp) (path : String) (k : Nat),
      ((fetch k).status = 403 → get_segment fetch path k 0 = ⟨.ok none, 1, 0, []⟩) ∧
      (∀ m ch, (fetch k).status = 403 → channelOf path = some ch →
        get_segment fetch path k (m + 1) =
          ⟨(get_segment fetch path (k + 1) m).out,
           (get_segment fetch path (k + 1) m).fetches + 1,
           (get_segment fetch path (k + 1) m).authClears + 1,
           ch :: (get_segment fetch path (k + 1) m).resolves⟩) := by
  intro fetch path k
  constructor
  · intro h
    rw [get_segment]
    simp [h]
  · intro m ch h hch
    rw [get_segment]
    simp [h, hch]

/-- Claim C9, witness: an always-403 responder: with max_attempts 0 the
call fails immediately after one fetch, and with max_attempts 1 it
performs exactly the retry step for the channel embedded in the path. -/
theorem c9_segment_retry_witness :
    get_segment segFetch403 "AAC_Data/octane/k/s.aac" 0 0 = ⟨.ok none, 1, 0, []⟩ ∧
    get_segment segFetch403 "AAC_Data/octane/k/s.aac" 0 1 =
      ⟨(get_segment segFetch403 "AAC_Data/octane/k/s.aac" 1 0).out,
       (get_segment segFetch403 "AAC_Data/octane/k/s.aac" 1 0).fetches + 1,
       (get_segment segFetch403 "AAC_Data/octane/k/s.aac" 1 0).authClears + 1,
       "octane" :: (get_segment segFetch403 "AAC_Data/octane/k/s.aac" 1 0).resolves⟩ :=
  ⟨(c9_segment_retry segFetch403 "AAC_Data/octane/k/s.aac" 0).1 rfl,
   (c9_segment_retry segFetch403 "AAC_Data/octane/k/s.aac" 0).2 0 "octane" rfl rfl⟩

/-- Claim C1, counterexample: with resolution always succeeding and the
variant-playlist fetch answering 403, 403, then 200, get_playlist issues
a third fetch and returns the rewritten playlist — the second consecutive
403 on the retried fetch triggers a further retry, not the failure the
claim states. -/
theorem c1_counterexample :
    (get_playlist c1Env 5 0 true).out = POut.ok (some "d/a.aac") ∧
    (get_playlist c1Env 5 0 true).urls.length = 3 ∧
    (get_playlist c1Env 5 0 true).authClears = 2 :=
  ⟨rfl, rfl, rfl⟩

/-- Claim C1, amended: every 403 on the variant-playlist fetch clears
last_auth_time and retries the entire operation with use_cache false —
unconditionally, with no counter, so a second consecutive 403 triggers a
further retry instead of failing (an always-403 responder recurses
without bound). -/
theorem c1_retry_unbounded :
    ∀ (env : PlEnv) (fuel k : Nat) (u : Bool) (url : String),
      pyTruthy env.channel.1 = true →
      pyTruthy env.channel.2 = true →
      env.resolve k u = some url →
      (env.fetch k).status = 403 →
      get_playlist env (fuel + 1) k u =
        ⟨(get_playlist env fuel (k + 1) false).out,
         some url :: (get_playlist env fuel (k + 1) false).urls,
         (get_playlist env fuel (k + 1) false).authClears + 1⟩ := by
  intro env fuel k u url h1 h2 hres hst
  rw [get_playlist]
  simp [h1, h2, hres, hst]

/-- Claim C1, witness: the amended retry step applied to the 403-403-200
environment at its first fetch. -/
theorem c1_retry_unbounded_witness :
    get_playlist c1Env 5 0 true =
      ⟨(get_playlist c1Env 4 1 false).out,
       some "https://h/d/v.m3u8" :: (get_playlist c1Env 4 1 false).urls,
       (get_playlist c1Env 4 1 false).authClears + 1⟩ :=
  c1_retry_unbounded c1Env 4 0 true "https://h/d/v.m3u8" rfl rfl rfl rfl

/-- Claim C10: when playlist resolution yields the absent URL, get_playlist
does not return failure at that point: it still issues the
variant-playlist fetch, passing the absent URL (which raises
MissingSchema inside the fetch), so the run neither returns the clean
failure value nor any normal value. -/
theorem c10_unguarded_fetch :
    (get_playlist c10Env 5 0 true).urls = [none] ∧
    (get_playlist c10Env 5 0 true).out = POut.exn "MissingSchema" ∧
    (get_playlist c10Env 5 0 true).out ≠ POut.ok none :=
  ⟨rfl, rfl, by decide⟩
